import Mathlib

/-!
Shallow embedding of `src/main.py` (Storage-App): a Flask webhook that
receives Pub/Sub push notifications about uploaded files, downloads the
file from Cloud Storage, extracts trivial metadata, and streams one row
into BigQuery.

External library calls (base64/utf-8/json decoding, the storage client,
the BigQuery client, the clock) are modelled as fields of an `Env`
record; the handler itself is a total Lean function returning the HTTP
response together with a trace of the downstream calls it made.
-/

/-- JSON values, as produced by `request.get_json()` / `json.loads`.
Objects are association lists of string keys (Python dicts after JSON
parsing have unique keys; lookup takes the first match). -/
inductive Json : Type where
  | null : Json
  | bool (b : Bool) : Json
  | num (n : Int) : Json
  | str (s : String) : Json
  | arr (elems : List Json) : Json
  | obj (fields : List (String × Json)) : Json
deriving Repr

/-- Python truthiness (`not x` in `main.py` lines 28 and 50):
`None`, `False`, `0`, `""`, `[]`, `{}` are falsy. -/
def Json.truthy : Json → Bool
  | .null => false
  | .bool b => b
  | .num n => n != 0
  | .str s => s != ""
  | .arr xs => !xs.isEmpty
  | .obj kvs => !kvs.isEmpty

/-- Key lookup in an object's field list (first match). -/
def lookupKvs (kvs : List (String × Json)) (k : String) : Option Json :=
  match kvs with
  | [] => none
  | (k', v) :: rest => if k' = k then some v else lookupKvs rest k

/-- Python `dict.get(k)`: the value if present, else `None`. -/
def dictGet (kvs : List (String × Json)) (k : String) : Json :=
  (lookupKvs kvs k).getD Json.null

/-- `isinstance(x, dict)`. -/
def Json.isObj : Json → Bool
  | .obj _ => true
  | _ => false

/-- Python `k in x` for a dict `x` (`False` on non-dicts; in `main.py`
it is only evaluated after an `isinstance(x, dict)` guard). -/
def Json.hasKey : Json → String → Bool
  | .obj kvs, k => (lookupKvs kvs k).isSome
  | _, _ => false

/-- Python `x[k]` subscript on a dict, evaluated only under
`isinstance` and membership guards in `main.py`. -/
def Json.item : Json → String → Json
  | .obj kvs, k => dictGet kvs k
  | _, _ => .null

/-- Python type names, for the `AttributeError` raised by
`event_data.get(...)` when `json.loads` returned a non-dict. -/
def pyTypeName : Json → String
  | .null => "NoneType"
  | .bool _ => "bool"
  | .num _ => "int"
  | .str _ => "str"
  | .arr _ => "list"
  | .obj _ => "dict"

/-- Message of the `AttributeError` raised by `x.get('bucket')` when
`x` is not a dict (line 47 of `main.py`). -/
def attrErrorMsg (j : Json) : String :=
  "'" ++ pyTypeName j ++ "' object has no attribute 'get'"

/-- Whitespace recognized by Python's `str.split()` with no arguments. -/
def pyIsSpace (c : Char) : Bool :=
  c == ' ' || c == '\t' || c == '\n' || c == '\r' || c == '\x0b' || c == '\x0c'

/-- Python `content.split()`: split on runs of whitespace, discarding
empty tokens (so leading/trailing whitespace produces no tokens). -/
def pySplit (s : String) : List String :=
  ((s.data.splitOnP pyIsSpace).filter (fun w => !w.isEmpty)).map fun w => String.mk w

/-- Python `s[:n]`: the first `n` characters (code points) of `s`. -/
def pyTake (s : String) (n : Nat) : String :=
  String.mk (s.data.take n)

/-- Python `repr` of a list of error strings, as interpolated by
`f"BigQuery insert failed: {errors}"`. -/
def pyListRepr (xs : List String) : String :=
  "[" ++ String.intercalate ", " xs ++ "]"

/-- The metadata row built in `process_file` (lines 77–83). -/
structure MetadataRecord : Type where
  filename : Json
  upload_timestamp : String
  word_count : Nat
  content_snippet : String
  tags : List String
deriving Repr

/-- External world of the service: the base64/utf-8/json decode chain
applied to `message["data"]` (line 42–44), `blob.download_as_text()`
keyed by (bucket, name), `bq_client.insert_rows_json` keyed by table id
and rows (returning the per-row error list), the project/dataset/table
configuration, and `datetime.utcnow().isoformat()`. -/
structure Env : Type where
  decodeData : Json → Except String Json
  downloadAsText : Json → Json → Except String String
  insertErrors : String → List MetadataRecord → List String
  project : String
  dataset : String
  table : String
  nowIso : String

/-- `f"{bq_client.project}.{BQ_DATASET}.{BQ_TABLE}"` (line 96). -/
def tableId (env : Env) : String :=
  env.project ++ "." ++ env.dataset ++ "." ++ env.table

/-- Metadata extraction (lines 74–83 of `main.py`): simulated OCR word
count, timestamp, 100-character snippet, fixed tags. -/
def extractMetadata (file_name : Json) (content : String) (now : String) : MetadataRecord :=
  { filename := file_name
  , upload_timestamp := now
  , word_count := (pySplit content).length
  , content_snippet := if content.length > 100 then pyTake content 100 else content
  , tags := ["simulated", "ocr", "processed"] }

/-- `insert_into_bigquery` (lines 94–104): one streaming insert of one
row; raises when the returned error list is non-empty.  The second
component records the insert calls made (table id and row list). -/
def insert_into_bigquery (env : Env) (row : MetadataRecord) :
    Except String Unit × List (String × List MetadataRecord) :=
  let table_id := tableId env
  let errors := env.insertErrors table_id [row]
  if !errors.isEmpty then
    (Except.error ("BigQuery insert failed: " ++ pyListRepr errors), [(table_id, [row])])
  else
    (Except.ok (), [(table_id, [row])])

/-- Trace of downstream calls made while handling one request:
object-store fetches (bucket, name) and warehouse inserts
(table id, rows). -/
structure Effects : Type where
  fetches : List (Json × Json)
  inserts : List (String × List MetadataRecord)
deriving Repr

/-- `process_file` (lines 64–92): download, extract, insert. Its
`except` clause logs and re-raises, so faults propagate unchanged. -/
def process_file (env : Env) (bucket_name file_name : Json) :
    Except String Unit × Effects :=
  match env.downloadAsText bucket_name file_name with
  | Except.error e => (Except.error e, ⟨[(bucket_name, file_name)], []⟩)
  | Except.ok content =>
      let metadata := extractMetadata file_name content env.nowIso
      let (r, ins) := insert_into_bigquery env metadata
      (r, ⟨[(bucket_name, file_name)], ins⟩)

/-- Body of the `try` block (lines 41–60) applied to
`pubsub_message["data"]`, plus the shared `return "OK", 200`
(line 62): decode the payload, look up `bucket`/`name`, run the
pipeline, translating any raised fault into a 500 response. -/
def tryProcess (env : Env) (d : Json) : (String × Nat) × Effects :=
  match env.decodeData d with
  | Except.error e => (("Error: " ++ e, 500), ⟨[], []⟩)
  | Except.ok event_data =>
    match event_data with
    | Json.obj ekvs =>
      let bucket_name := dictGet ekvs "bucket"
      let file_name := dictGet ekvs "name"
      if !bucket_name.truthy || !file_name.truthy then
        (("OK", 200), ⟨[], []⟩)
      else
        match process_file env bucket_name file_name with
        | (Except.ok _, eff) => (("OK", 200), eff)
        | (Except.error e, eff) => (("Error: " ++ e, 500), eff)
    | _ => (("Error: " ++ attrErrorMsg event_data, 500), ⟨[], []⟩)

/-- Lines 40–62 of `main.py`: the `data` guard on the message and the
final `return "OK", 200`. -/
def handleMessage (env : Env) (pubsub_message : Json) : (String × Nat) × Effects :=
  match pubsub_message with
  | Json.obj mkvs =>
    match lookupKvs mkvs "data" with
    | none => (("OK", 200), ⟨[], []⟩)
    | some d => tryProcess env d
  | _ => (("OK", 200), ⟨[], []⟩)

/-- The route handler `index` (lines 24–62).  The argument is the
result of `request.get_json()` (`none` when the body is not JSON).
Returns ((body, status), downstream-call trace). -/
def index (env : Env) (envelope : Option Json) : (String × Nat) × Effects :=
  match envelope with
  | none => (("Bad Request: no Pub/Sub message received", 400), ⟨[], []⟩)
  | some ej =>
    if !ej.truthy then
      (("Bad Request: no Pub/Sub message received", 400), ⟨[], []⟩)
    else if !(ej.isObj && ej.hasKey "message") then
      (("Bad Request: invalid Pub/Sub message format", 400), ⟨[], []⟩)
    else
      handleMessage env (ej.item "message")

/-- A concrete environment for instantiations: decoding fails, the
object store has nothing, inserts succeed. -/
def env0 : Env :=
  { decodeData := fun _ => Except.error "decode failure"
  , downloadAsText := fun _ _ => Except.error "Not Found"
  , insertErrors := fun _ _ => []
  , project := "p", dataset := "doc_processing", table := "metadata"
  , nowIso := "2026-10-12T00:00:00" }

/-- `base64('{"bucket": "b1", "name": "f1.txt"}')`, the `data` value of
the scenario envelope. -/
def c2Data : Json := Json.str "eyJidWNrZXQiOiAiYjEiLCAibmFtZSI6ICJmMS50eHQifQ=="

/-- The scenario envelope `{"message": {"data": base64(...)}}`. -/
def c2Envelope : Json := Json.obj [("message", Json.obj [("data", c2Data)])]

/-- The storage event obtained by decoding `c2Data`. -/
def c2Event : Json := Json.obj [("bucket", Json.str "b1"), ("name", Json.str "f1.txt")]

/-- The metadata record the scenario expects: filename `f1.txt`,
word count 2, snippet `hello world`, the three fixed tags. -/
def c2Record (now : String) : MetadataRecord :=
  { filename := Json.str "f1.txt"
  , upload_timestamp := now
  , word_count := 2
  , content_snippet := "hello world"
  , tags := ["simulated", "ocr", "processed"] }

/-- Environment for the happy-path scenario: `data` decodes to the
(b1, f1.txt) event, the store returns "hello world", inserts succeed. -/
def env2 : Env :=
  { decodeData := fun _ => Except.ok c2Event
  , downloadAsText := fun _ _ => Except.ok "hello world"
  , insertErrors := fun _ _ => []
  , project := "p", dataset := "doc_processing", table := "metadata"
  , nowIso := "2026-10-12T00:00:00" }

/-- Environment whose decoded event lacks the `name` field. -/
def env5 : Env :=
  { env0 with decodeData := fun _ => Except.ok (Json.obj [("bucket", Json.str "b1")]) }

/-- Environment where decoding and the fetch succeed but the warehouse
reports a per-row error. -/
def env6 : Env :=
  { env2 with insertErrors := fun _ _ => ["row error"] }

/-- Environment where decoding succeeds and the fetch raises. -/
def env7 : Env :=
  { env0 with decodeData := fun _ => Except.ok c2Event }

/-- Environment whose `data` decodes to a JSON array (not an object). -/
def env10 : Env :=
  { env0 with decodeData := fun _ => Except.ok (Json.arr [Json.num 1]) }

/-! ## Helper lemmas -/

/-- A successful lookup means the field list is non-empty. -/
theorem lookupKvs_isEmpty_false {kvs : List (String × Json)} {k : String} {v : Json}
    (h : lookupKvs kvs k = some v) : kvs.isEmpty = false := by
  cases kvs with
  | nil => simp [lookupKvs] at h
  | cons p rest => rfl

/-- Once the envelope is a dict containing `message`, `index` hands the
message value to the lines 40–62 logic. -/
theorem index_reaches (env : Env) (kvs : List (String × Json)) (m : Json)
    (hmsg : lookupKvs kvs "message" = some m) :
    index env (some (Json.obj kvs)) = handleMessage env m := by
  have hne := lookupKvs_isEmpty_false hmsg
  simp [index, Json.truthy, Json.isObj, Json.hasKey, Json.item, dictGet, hmsg, hne]

/-- Once the message is a dict containing `data`, the handler enters the
`try` block on the `data` value. -/
theorem handleMessage_data (env : Env) (mkvs : List (String × Json)) (d : Json)
    (hdata : lookupKvs mkvs "data" = some d) :
    handleMessage env (Json.obj mkvs) = tryProcess env d := by
  simp [handleMessage, hdata]

/-- With a decoded dict event and truthy `bucket`/`name`, the `try`
block runs the pipeline and translates its outcome. -/
theorem tryProcess_run (env : Env) (d : Json) (ekvs : List (String × Json))
    (hdec : env.decodeData d = Except.ok (Json.obj ekvs))
    (hbt : (dictGet ekvs "bucket").truthy = true)
    (hnt : (dictGet ekvs "name").truthy = true) :
    tryProcess env d =
      (match process_file env (dictGet ekvs "bucket") (dictGet ekvs "name") with
       | (Except.ok _, eff) => (("OK", 200), eff)
       | (Except.error e, eff) => (("Error: " ++ e, 500), eff)) := by
  simp [tryProcess, hdec, hbt, hnt]

/-! ## Claims -/

/-- C1 (counterexample): the envelope `{"message": 5}` has `message`
present with a non-dict value, yet `index` responds 200 "OK", not 400:
line 40's `isinstance` guard routes non-dict messages to the final
`return "OK", 200`. -/
theorem C1_counterexample :
    (index env0 (some (Json.obj [("message", Json.num 5)]))).1 = ("OK", 200) ∧
    (index env0 (some (Json.obj [("message", Json.num 5)]))).1.2 ≠ 400 :=
  ⟨rfl, by decide⟩

/-- C1 (amended): for a JSON-object body, absence of the `message` key
yields status 400 with a body starting "Bad Request"; when `message` is
present with a non-dict value the handler instead responds 200 "OK"
with no downstream calls. -/
theorem C1_theorem (env : Env) (kvs : List (String × Json)) :
    (lookupKvs kvs "message" = none →
      (index env (some (Json.obj kvs))).1.2 = 400 ∧
      (index env (some (Json.obj kvs))).1.1.take 11 = "Bad Request") ∧
    (∀ m, lookupKvs kvs "message" = some m → m.isObj = false →
      index env (some (Json.obj kvs)) = (("OK", 200), ⟨[], []⟩)) := by
  constructor
  · intro hnone
    cases kvs with
    | nil =>
        have h2 : index env (some (Json.obj [])) =
            (("Bad Request: no Pub/Sub message received", 400), ⟨[], []⟩) := rfl
        rw [h2]
        exact ⟨rfl, by decide⟩
    | cons p rest =>
        have h2 : index env (some (Json.obj (p :: rest))) =
            (("Bad Request: invalid Pub/Sub message format", 400), ⟨[], []⟩) := by
          simp [index, Json.truthy, Json.isObj, Json.hasKey, hnone]
        rw [h2]
        exact ⟨rfl, by decide⟩
  · intro m hmsg hnotobj
    rw [index_reaches env kvs m hmsg]
    cases m with
    | null => rfl
    | bool b => rfl
    | num n => rfl
    | str s => rfl
    | arr xs => rfl
    | obj mkvs => simp [Json.isObj] at hnotobj

/-- C1 (witness): for `{"x": null}` (no `message`) the status is 400;
for `{"message": 5}` the response is 200 "OK" with no calls. -/
theorem C1_witness :
    (index env0 (some (Json.obj [("x", Json.null)]))).1.2 = 400 ∧
    index env0 (some (Json.obj [("message", Json.num 5)])) = (("OK", 200), ⟨[], []⟩) :=
  ⟨((C1_theorem env0 [("x", Json.null)]).1 rfl).1,
   (C1_theorem env0 [("message", Json.num 5)]).2 (Json.num 5) rfl rfl⟩

/-- C4: whenever the decode chain on `message["data"]` fails with
message `e`, the handler catches it and responds 500 with body
`"Error: " ++ e` (so the body contains the failure message); `index`
being a total function, the fault never escapes the handler. -/
theorem C4_theorem (env : Env) (kvs dkvs : List (String × Json)) (d : Json) (e : String)
    (hmsg : lookupKvs kvs "message" = some (Json.obj dkvs))
    (hdata : lookupKvs dkvs "data" = some d)
    (hfail : env.decodeData d = Except.error e) :
    (index env (some (Json.obj kvs))).1 = ("Error: " ++ e, 500) := by
  rw [index_reaches env kvs (Json.obj dkvs) hmsg, handleMessage_data env dkvs d hdata]
  simp [tryProcess, hfail]

/-- C4 (witness): in `env0` the decode chain fails with
"decode failure" and the handler responds 500 `Error: decode failure`. -/
theorem C4_witness :
    (index env0 (some (Json.obj [("message", Json.obj [("data", Json.str "x")])]))).1
      = ("Error: " ++ "decode failure", 500) :=
  C4_theorem env0 [("message", Json.obj [("data", Json.str "x")])] [("data", Json.str "x")]
    (Json.str "x") "decode failure" rfl rfl rfl

/-- C8: if the envelope is a dict with a `message` key whose value
lacks a `data` field (it is not a dict, or is a dict without `data`),
the handler responds 200 "OK" and makes no downstream calls. -/
theorem C8_theorem (env : Env) (kvs : List (String × Json)) (m : Json)
    (hmsg : lookupKvs kvs "message" = some m)
    (hnodata : m.hasKey "data" = false) :
    index env (some (Json.obj kvs)) = (("OK", 200), ⟨[], []⟩) := by
  rw [index_reaches env kvs m hmsg]
  cases m with
  | null => rfl
  | bool b => rfl
  | num n => rfl
  | str s => rfl
  | arr xs => rfl
  | obj mkvs =>
      cases hd : lookupKvs mkvs "data" with
      | none => simp [handleMessage, hd]
      | some d => simp [Json.hasKey, hd] at hnodata

/-- C8 (witness): envelope `{"message": {"foo": null}}` gets 200 "OK"
and no downstream calls. -/
theorem C8_witness :
    index env0 (some (Json.obj [("message", Json.obj [("foo", Json.null)])]))
      = (("OK", 200), ⟨[], []⟩) :=
  C8_theorem env0 [("message", Json.obj [("foo", Json.null)])]
    (Json.obj [("foo", Json.null)]) rfl rfl

/-- C9: metadata extraction is idempotent on content-derived fields:
identical content yields identical word_count and content_snippet, for
any two extraction timestamps. -/
theorem C9_theorem (fn : Json) (content t1 t2 : String) :
    (extractMetadata fn content t1).word_count = (extractMetadata fn content t2).word_count ∧
    (extractMetadata fn content t1).content_snippet = (extractMetadata fn content t2).content_snippet :=
  ⟨rfl, rfl⟩

/-- C10: when `message["data"]` decodes and parses to a non-object
JSON value `ev`, the `.get('bucket')` attribute lookup on it raises,
the handler catches it, and the response is the 500 AttributeError
message (in particular not 200 and not 400). -/
theorem C10_theorem (env : Env) (kvs dkvs : List (String × Json)) (d ev : Json)
    (hmsg : lookupKvs kvs "message" = some (Json.obj dkvs))
    (hdata : lookupKvs dkvs "data" = some d)
    (hdec : env.decodeData d = Except.ok ev)
    (hnotobj : ev.isObj = false) :
    (index env (some (Json.obj kvs))).1 = ("Error: " ++ attrErrorMsg ev, 500) := by
  rw [index_reaches env kvs (Json.obj dkvs) hmsg, handleMessage_data env dkvs d hdata]
  cases ev with
  | null => simp [tryProcess, hdec]
  | bool b => simp [tryProcess, hdec]
  | num n => simp [tryProcess, hdec]
  | str s => simp [tryProcess, hdec]
  | arr xs => simp [tryProcess, hdec]
  | obj ekvs => simp [Json.isObj] at hnotobj

/-- C10 (witness): with `data` decoding to the array `[1]`, the handler
responds 500 with the list AttributeError message. -/
theorem C10_witness :
    (index env10 (some (Json.obj [("message", Json.obj [("data", Json.str "x")])]))).1
      = ("Error: " ++ attrErrorMsg (Json.arr [Json.num 1]), 500) :=
  C10_theorem env10 [("message", Json.obj [("data", Json.str "x")])] [("data", Json.str "x")]
    (Json.str "x") (Json.arr [Json.num 1]) rfl rfl rfl rfl

/-- C2: for the scenario envelope, when `data` decodes to the
(b1, f1.txt) event, the store returns "hello world" and the warehouse
reports no errors, the handler fetches (b1, f1.txt), builds the record
with word_count 2, snippet "hello world" and the three fixed tags,
performs exactly one insert of exactly that row, and responds
200 "OK". -/
theorem C2_theorem (env : Env)
    (hdec : env.decodeData c2Data = Except.ok c2Event)
    (hfetch : env.downloadAsText (Json.str "b1") (Json.str "f1.txt") = Except.ok "hello world")
    (hins : env.insertErrors (tableId env) [c2Record env.nowIso] = []) :
    index env (some c2Envelope) =
      (("OK", 200), ⟨[(Json.str "b1", Json.str "f1.txt")],
        [(tableId env, [c2Record env.nowIso])]⟩) := by
  have h1 : index env (some c2Envelope) = tryProcess env c2Data := by
    have e1 := index_reaches env [("message", Json.obj [("data", c2Data)])]
      (Json.obj [("data", c2Data)]) rfl
    have e2 := handleMessage_data env [("data", c2Data)] c2Data rfl
    exact e1.trans e2
  have hb : dictGet [("bucket", Json.str "b1"), ("name", Json.str "f1.txt")] "bucket"
      = Json.str "b1" := rfl
  have hn : dictGet [("bucket", Json.str "b1"), ("name", Json.str "f1.txt")] "name"
      = Json.str "f1.txt" := rfl
  have h2 := tryProcess_run env c2Data [("bucket", Json.str "b1"), ("name", Json.str "f1.txt")]
    hdec (by rw [hb]; rfl) (by rw [hn]; rfl)
  have hrec : extractMetadata (Json.str "f1.txt") "hello world" env.nowIso
      = c2Record env.nowIso := rfl
  rw [h1, h2, hb, hn]
  simp [process_file, hfetch, hrec, insert_into_bigquery, hins]

/-- C2 (witness): the scenario run in the concrete environment
`env2`. -/
theorem C2_witness :
    index env2 (some c2Envelope) =
      (("OK", 200), ⟨[(Json.str "b1", Json.str "f1.txt")],
        [(tableId env2, [c2Record "2026-10-12T00:00:00"])]⟩) :=
  C2_theorem env2 rfl rfl rfl

/-- C3: for every text, word_count is the number of whitespace-separated
tokens, content_snippet is the first 100 characters when the text is
longer than 100 characters and the whole text otherwise; hence the
snippet is never longer than 100 and equals the text when the text has
at most 100 characters. -/
theorem C3_theorem (fn : Json) (content now : String) :
    (extractMetadata fn content now).word_count = (pySplit content).length ∧
    (extractMetadata fn content now).content_snippet =
      (if content.length > 100 then pyTake content 100 else content) ∧
    (extractMetadata fn content now).content_snippet.length ≤ 100 ∧
    (content.length ≤ 100 → (extractMetadata fn content now).content_snippet = content) := by
  refine ⟨rfl, rfl, ?_, ?_⟩
  · by_cases h : content.length > 100
    · have h2 : (extractMetadata fn content now).content_snippet = pyTake content 100 := by
        simp [extractMetadata, h]
      rw [h2]
      have h3 : (pyTake content 100).length = (content.data.take 100).length := rfl
      rw [h3, List.length_take]
      exact Nat.min_le_left _ _
    · have h2 : (extractMetadata fn content now).content_snippet = content := by
        simp [extractMetadata, h]
      rw [h2]
      omega
  · intro hle
    have h : ¬ content.length > 100 := by omega
    simp [extractMetadata, h]

/-- C3 (witness): on "hello world" the record has the token count of
the text and the snippet is the whole text. -/
theorem C3_witness :
    (extractMetadata (Json.str "f1") "hello world" "t0").word_count
      = (pySplit "hello world").length ∧
    (extractMetadata (Json.str "f1") "hello world" "t0").content_snippet = "hello world" :=
  ⟨(C3_theorem (Json.str "f1") "hello world" "t0").1,
   (C3_theorem (Json.str "f1") "hello world" "t0").2.2.2 (by decide)⟩

/-- C5: when the decoded storage event lacks `bucket` or `name` or has
it bound to the empty string, the handler responds 200 "OK" and makes
no downstream calls: no fetch, no insert. -/
theorem C5_theorem (env : Env) (kvs dkvs ekvs : List (String × Json)) (d : Json)
    (hmsg : lookupKvs kvs "message" = some (Json.obj dkvs))
    (hdata : lookupKvs dkvs "data" = some d)
    (hdec : env.decodeData d = Except.ok (Json.obj ekvs))
    (hmiss : lookupKvs ekvs "bucket" = none ∨ lookupKvs ekvs "bucket" = some (Json.str "") ∨
             lookupKvs ekvs "name" = none ∨ lookupKvs ekvs "name" = some (Json.str "")) :
    index env (some (Json.obj kvs)) = (("OK", 200), ⟨[], []⟩) := by
  rw [index_reaches env kvs (Json.obj dkvs) hmsg, handleMessage_data env dkvs d hdata]
  have hcond : (!(dictGet ekvs "bucket").truthy || !(dictGet ekvs "name").truthy) = true := by
    rcases hmiss with h | h | h | h <;> simp [dictGet, h, Json.truthy]
  simp [tryProcess, hdec, hcond]

/-- C5 (witness): an event with `bucket` but no `name` is accepted with
200 "OK" and no downstream calls. -/
theorem C5_witness :
    index env5 (some (Json.obj [("message", Json.obj [("data", Json.str "x")])]))
      = (("OK", 200), ⟨[], []⟩) :=
  C5_theorem env5 [("message", Json.obj [("data", Json.str "x")])] [("data", Json.str "x")]
    [("bucket", Json.str "b1")] (Json.str "x") rfl rfl rfl (Or.inr (Or.inr (Or.inl rfl)))

/-- C6: `insert_into_bigquery` raises exactly when the warehouse call
returns a non-empty per-row error list, and when that happens while a
notification is processed the handler responds with status 500. -/
theorem C6_theorem (env : Env) (row : MetadataRecord)
    (kvs dkvs ekvs : List (String × Json)) (d : Json) (content : String) :
    ((insert_into_bigquery env row).1 = Except.ok ()
        ↔ env.insertErrors (tableId env) [row] = []) ∧
    (lookupKvs kvs "message" = some (Json.obj dkvs) →
     lookupKvs dkvs "data" = some d →
     env.decodeData d = Except.ok (Json.obj ekvs) →
     (dictGet ekvs "bucket").truthy = true →
     (dictGet ekvs "name").truthy = true →
     env.downloadAsText (dictGet ekvs "bucket") (dictGet ekvs "name") = Except.ok content →
     env.insertErrors (tableId env) [extractMetadata (dictGet ekvs "name") content env.nowIso] ≠ [] →
     (index env (some (Json.obj kvs))).1.2 = 500) := by
  constructor
  · cases herr : env.insertErrors (tableId env) [row] with
    | nil => simp [insert_into_bigquery, herr]
    | cons a l => simp [insert_into_bigquery, herr]
  · intro hmsg hdata hdec hbt hnt hfetch herr
    rw [index_reaches env kvs (Json.obj dkvs) hmsg, handleMessage_data env dkvs d hdata,
        tryProcess_run env d ekvs hdec hbt hnt]
    cases herr2 : env.insertErrors (tableId env)
        [extractMetadata (dictGet ekvs "name") content env.nowIso] with
    | nil => exact absurd herr2 herr
    | cons a l => simp [process_file, hfetch, insert_into_bigquery, herr2]

/-- C6 (witness): in `env6` the warehouse reports a row error, the
insert raises, and the scenario request gets status 500. -/
theorem C6_witness :
    ((insert_into_bigquery env6 (c2Record "t")).1 = Except.ok ()
        ↔ env6.insertErrors (tableId env6) [c2Record "t"] = []) ∧
    (index env6 (some c2Envelope)).1.2 = 500 :=
  ⟨(C6_theorem env6 (c2Record "t") [] [] [] Json.null "").1,
   (C6_theorem env6 (c2Record "t") [("message", Json.obj [("data", c2Data)])] [("data", c2Data)]
      [("bucket", Json.str "b1"), ("name", Json.str "f1.txt")] c2Data "hello world").2
      rfl rfl rfl rfl rfl rfl (by decide)⟩

/-- C7: when the object-store fetch for (bucket, name) raises with
message `e`, the handler responds 500 with body `"Error: " ++ e`
(containing the fault description) and no insert call is made. -/
theorem C7_theorem (env : Env) (kvs dkvs ekvs : List (String × Json)) (d : Json) (e : String)
    (hmsg : lookupKvs kvs "message" = some (Json.obj dkvs))
    (hdata : lookupKvs dkvs "data" = some d)
    (hdec : env.decodeData d = Except.ok (Json.obj ekvs))
    (hbt : (dictGet ekvs "bucket").truthy = true)
    (hnt : (dictGet ekvs "name").truthy = true)
    (hfetch : env.downloadAsText (dictGet ekvs "bucket") (dictGet ekvs "name") = Except.error e) :
    (index env (some (Json.obj kvs))).1 = ("Error: " ++ e, 500) ∧
    (index env (some (Json.obj kvs))).2.inserts = [] := by
  rw [index_reaches env kvs (Json.obj dkvs) hmsg, handleMessage_data env dkvs d hdata,
      tryProcess_run env d ekvs hdec hbt hnt]
  simp [process_file, hfetch]

/-- C7 (witness): in `env7` the store raises "Not Found" and the
scenario request gets 500 `Error: Not Found` with no insert. -/
theorem C7_witness :
    (index env7 (some c2Envelope)).1 = ("Error: " ++ "Not Found", 500) ∧
    (index env7 (some c2Envelope)).2.inserts = [] :=
  C7_theorem env7 [("message", Json.obj [("data", c2Data)])] [("data", c2Data)]
    [("bucket", Json.str "b1"), ("name", Json.str "f1.txt")] c2Data "Not Found"
    rfl rfl rfl rfl rfl rfl
